import Mathlib

/-!
Verification of the quiz normalization pipeline, progress tracker and quiz
session state machine of `streamlit_chatbot_planner.py`.

The Python values flowing through `gen_quiz` are JSON trees (the result of
`json.loads`), so we embed them as an inductive `Json` type.  Python `dict`s
preserve insertion order and update keys in place, so objects are ordered
association lists and `setField` mimics `d[k] = v` (replace in place if the
key exists, append otherwise), `delField` mimics `d.pop(k)` / `del d[k]`.
-/

set_option maxRecDepth 10000

namespace Planner

/-- A parsed JSON value (the result of Python `json.loads`).  Python `bool`
is a distinct runtime type from `int` (though a subclass), so it gets its own
constructor.  Non-integer numbers are kept as their raw token text; no claim
inspects their numeric value. -/
inductive Json where
  | null : Json
  | bool : Bool → Json
  | int : Int → Json
  | float : String → Json
  | str : String → Json
  | arr : List Json → Json
  | obj : List (String × Json) → Json
deriving Repr

/-- Python `d[k]` / `k in d` lookup on an ordered dict. -/
def lookupField (k : String) : List (String × Json) → Option Json
  | [] => none
  | (k', v) :: fs => if k' = k then some v else lookupField k fs

/-- Python `d[k] = v`: update in place if `k` present, else append at the end. -/
def setField (k : String) (v : Json) : List (String × Json) → List (String × Json)
  | [] => [(k, v)]
  | (k', v') :: fs => if k' = k then (k', v) :: fs else (k', v') :: setField k v fs

/-- Python `d.pop(k)` / `del d[k]`: remove the (unique) binding of `k`. -/
def delField (k : String) : List (String × Json) → List (String × Json)
  | [] => []
  | (k', v') :: fs => if k' = k then fs else (k', v') :: delField k fs

/-- The structural rule a per-item `ValueError` in `gen_quiz` reports. -/
inductive Rule where
  | missingQuestion : Rule      -- "Item i tidak memiliki question"
  | badOptions : Rule           -- "Item i tidak memiliki 4 opsi valid"
  | badCorrectAnswer : Rule     -- "Item i correct_answer tidak valid"
  | badAnswerIndex : Rule       -- "Item i tidak memiliki answer_index valid (0-3)"
deriving Repr, DecidableEq

/-- The failures `gen_quiz` can produce.  `parseError` and `schemaError` and
`noItems` are the `ValueError`s the function raises itself ("ParseError" /
"SchemaError" in the spec); `typeError` models an uncaught Python
`TypeError`/`AttributeError` escaping from the normalization code. -/
inductive QuizError where
  | parseError (snippet : String) (cause : String) : QuizError
  | noItems : QuizError
  | schemaError (i : Nat) (r : Rule) : QuizError
  | typeError (msg : String) : QuizError
deriving Repr

/-- Python `len(v)`: defined for `list`, `str` and `dict`, `TypeError`
otherwise. -/
def pyLen : Json → Except QuizError Nat
  | .arr xs => .ok xs.length
  | .str s => .ok s.length
  | .obj fs => .ok fs.length
  | _ => .error (.typeError "object has no len")

/-- Python `isinstance(v, int)`: `bool` is a subclass of `int`. -/
def pyIsInt : Json → Bool
  | .int _ => true
  | .bool _ => true
  | _ => false

/-- The integer value Python arithmetic/comparison sees for an int-like
value (`True == 1`, `False == 0`). -/
def pyIntOf : Json → Int
  | .int n => n
  | .bool b => if b then 1 else 0
  | _ => 0

/-- Python `choice == v` where `choice` is an `int` (the radio selection):
numeric equality against `int`/`bool`, `False` against anything else. -/
def pyEqNum (choice : Int) : Json → Bool
  | .int n => choice = n
  | .bool b => choice = (if b then 1 else 0)
  | _ => false

/-- `n` is a prefix of the second list. -/
def isPrefixChars : List Char → List Char → Bool
  | [], _ => true
  | _ :: _, [] => false
  | a :: as, b :: bs => a = b && isPrefixChars as bs

/-- `n` occurs contiguously in the second list. -/
def isInfixChars (n : List Char) : List Char → Bool
  | [] => n.isEmpty
  | b :: bs => isPrefixChars n (b :: bs) || isInfixChars n bs

/-- Python `needle in hay` on strings: substring containment (the empty
string is a substring of everything). -/
def isSubstr (needle hay : String) : Bool :=
  isInfixChars needle.toList hay.toList

/-- The whitespace characters Python `str.strip()` removes (for the ASCII
range relevant here). -/
def isPyWs (c : Char) : Bool :=
  c = ' ' || c = '\t' || c = '\n' || c = '\r' || c = Char.ofNat 11 || c = Char.ofNat 12

/-- Python `s.strip()`. -/
def pyStrip (s : String) : String :=
  String.mk (((s.toList.dropWhile isPyWs).reverse.dropWhile isPyWs).reverse)

/-- Python `s.upper()` (ASCII letters; the inputs at hand are ASCII). -/
def pyUpper (s : String) : String :=
  String.mk (s.toList.map Char.toUpper)

/-- Python `s[:n]` — the first `n` characters. -/
def strTake (s : String) (n : Nat) : String :=
  String.mk (s.toList.take n)

/-- Python `s.startswith(p)`. -/
def strHasPrefix (p s : String) : Bool :=
  isPrefixChars p.toList s.toList

/-- Python `s.endswith(p)`. -/
def strHasSuffix (p s : String) : Bool :=
  isPrefixChars p.toList.reverse s.toList.reverse

/-- An apostrophe character, for Python `repr` of strings. -/
def sq : String := String.singleton (Char.ofNat 39)

/-- Python `repr(v)` for JSON-shaped values (used by `str` on containers).
`repr` of a float is approximated by its raw token; no claim depends on it. -/
def pyRepr : Json → String
  | .str s => sq ++ s ++ sq
  | .int n => toString n
  | .bool b => if b then "True" else "False"
  | .null => "None"
  | .float raw => raw
  | .arr xs => "[" ++ String.intercalate ", " (xs.attach.map (fun x => pyRepr x.1)) ++ "]"
  | .obj fs =>
      "\x7b" ++
        String.intercalate ", "
          (fs.attach.map (fun f => sq ++ f.1.1 ++ sq ++ ": " ++ pyRepr f.1.2)) ++
      "\x7d"
decreasing_by
  · have h1 := List.sizeOf_lt_of_mem x.2
    simp only [Json.arr.sizeOf_spec]
    omega
  · have h1 := List.sizeOf_lt_of_mem f.2
    have h2 : sizeOf f.1.2 < sizeOf f.1 := by
      obtain ⟨⟨a, b⟩, hf⟩ := f
      simp only [Prod.mk.sizeOf_spec]
      omega
    simp only [Json.obj.sizeOf_spec]
    omega

/-- Python `str(v)` as used by the f-string `f"q{...}"`. -/
def pyStr : Json → String
  | .str s => s
  | v => pyRepr v

/-! ### A JSON parser embedding Python's `json.loads`

Recursive-descent parser over a character list, with a fuel argument so the
recursion is structural (and hence kernel-reducible on concrete inputs).
It follows the strict JSON grammar `json.loads` accepts: objects, arrays,
double-quoted strings with the standard escapes, integers and
fraction/exponent numbers, `true`/`false`/`null`, and the four ASCII
whitespace characters between tokens.  Duplicate object keys follow Python
dict semantics (later value wins, first position kept). -/

/-- The opening brace character. -/
def lbrace : Char := Char.ofNat 123

/-- The closing brace character. -/
def rbrace : Char := Char.ofNat 125

/-- JSON inter-token whitespace. -/
def isJsonWs (c : Char) : Bool :=
  c = ' ' || c = '\t' || c = '\n' || c = '\r'

/-- Skip inter-token whitespace. -/
def skipWs : List Char → List Char
  | [] => []
  | c :: cs => if isJsonWs c then skipWs cs else c :: cs

/-- Hex digit value, if any. -/
def hexVal (c : Char) : Option Nat :=
  if '0' ≤ c ∧ c ≤ '9' then some (c.toNat - 48)
  else if 'a' ≤ c ∧ c ≤ 'f' then some (c.toNat - 87)
  else if 'A' ≤ c ∧ c ≤ 'F' then some (c.toNat - 70)
  else none

/-- Parse the body of a JSON string (the opening quote already consumed),
returning the decoded characters and the rest of the input. -/
def pStringBody (acc : List Char) : List Char → Except String (String × List Char)
  | [] => .error "Unterminated string"
  | '"' :: rest => .ok (String.mk acc.reverse, rest)
  | '\\' :: rest =>
    match rest with
    | '"' :: rs => pStringBody ('"' :: acc) rs
    | '\\' :: rs => pStringBody ('\\' :: acc) rs
    | '/' :: rs => pStringBody ('/' :: acc) rs
    | 'b' :: rs => pStringBody (Char.ofNat 8 :: acc) rs
    | 'f' :: rs => pStringBody (Char.ofNat 12 :: acc) rs
    | 'n' :: rs => pStringBody ('\n' :: acc) rs
    | 'r' :: rs => pStringBody ('\r' :: acc) rs
    | 't' :: rs => pStringBody ('\t' :: acc) rs
    | 'u' :: h1 :: h2 :: h3 :: h4 :: rs =>
      match hexVal h1, hexVal h2, hexVal h3, hexVal h4 with
      | some a, some b, some c, some d =>
          pStringBody (Char.ofNat (((a * 16 + b) * 16 + c) * 16 + d) :: acc) rs
      | _, _, _, _ => .error "Invalid \\uXXXX escape"
    | _ => .error "Invalid \\escape"
  | c :: rest =>
    if c.toNat < 32 then .error "Invalid control character"
    else pStringBody (c :: acc) rest

/-- Take a maximal run of decimal digits. -/
def takeDigits : List Char → (List Char × List Char)
  | [] => ([], [])
  | c :: cs =>
    if c.isDigit then
      let (ds, rest) := takeDigits cs
      (c :: ds, rest)
    else ([], c :: cs)

/-- Digits to a natural number. -/
def digitsToNat (ds : List Char) : Nat :=
  ds.foldl (fun n c => n * 10 + (c.toNat - 48)) 0

/-- Parse a JSON number token, mirroring the scanner regex
`(-?(0|[1-9]d*))(.d+)?([eE][-+]?d+)?` of Python's json module: an incomplete
fraction or exponent part is simply not consumed, as is any digit after a
leading zero.  Integer tokens become `Json.int`; tokens with a fraction or
exponent part become `Json.float` carrying the raw token.  (The `NaN` /
`Infinity` extensions Python also accepts are not modelled; no claim
involves them.) -/
def pNumber (cs : List Char) : Except String (Json × List Char) :=
  let (neg, cs1) := match cs with
    | '-' :: rest => (true, rest)
    | _ => (false, cs)
  let (dsAll, csA) := takeDigits cs1
  match dsAll with
  | [] => .error "Expecting value"
  | d0 :: drest =>
    let (ds, cs2) := if d0 = '0' ∧ drest ≠ [] then ([d0], drest ++ csA) else (dsAll, csA)
    let (fracPart, cs3) : List Char × List Char :=
      match cs2 with
      | '.' :: fcs =>
        let (fds, rest) := takeDigits fcs
        if fds = [] then ([], cs2) else ('.' :: fds, rest)
      | _ => ([], cs2)
    let (expPart, cs4) : List Char × List Char :=
      match cs3 with
      | e :: ecs =>
        if e = 'e' ∨ e = 'E' then
          let (sgn, ecs2) := match ecs with
            | '+' :: r => (['+'], r)
            | '-' :: r => (['-'], r)
            | _ => ([], ecs)
          let (eds, rest) := takeDigits ecs2
          if eds = [] then ([], cs3) else (e :: (sgn ++ eds), rest)
        else ([], cs3)
      | [] => ([], cs3)
    if fracPart = [] ∧ expPart = [] then
      let n : Int := Int.ofNat (digitsToNat ds)
      .ok (.int (if neg then -n else n), cs2)
    else
      .ok (.float (String.mk ((if neg then ['-'] else []) ++ ds ++ fracPart ++ expPart)), cs4)

/-- Parse one JSON value / the tail of an array / the tail of an object.
`mode 0`: a value; `mode 1`: array elements up to `]` (accumulating into
`acc`); `mode 2`: object members up to the closing brace (accumulating into
`facc` with dict-update semantics). -/
def pRun (fuel : Nat) (mode : Nat) (cs : List Char)
    (acc : List Json) (facc : List (String × Json)) :
    Except String (Json × List Char) :=
  match fuel with
  | 0 => .error "Input too deeply nested"
  | fuel + 1 =>
    if mode = 0 then
      match skipWs cs with
      | [] => .error "Expecting value"
      | c :: rest =>
        if c = '"' then
          match pStringBody [] rest with
          | .ok (s, rest') => .ok (.str s, rest')
          | .error e => .error e
        else if c = lbrace then
          pRun fuel 2 rest [] []
        else if c = '[' then
          pRun fuel 1 rest [] []
        else if c = 't' then
          match rest with
          | 'r' :: 'u' :: 'e' :: rest' => .ok (.bool true, rest')
          | _ => .error "Expecting value"
        else if c = 'f' then
          match rest with
          | 'a' :: 'l' :: 's' :: 'e' :: rest' => .ok (.bool false, rest')
          | _ => .error "Expecting value"
        else if c = 'n' then
          match rest with
          | 'u' :: 'l' :: 'l' :: rest' => .ok (.null, rest')
          | _ => .error "Expecting value"
        else if c = '-' ∨ c.isDigit then
          pNumber (c :: rest)
        else .error "Expecting value"
    else if mode = 1 then
      match skipWs cs with
      | [] => .error "Expecting value or closing bracket"
      | c :: rest =>
        if c = ']' ∧ acc.isEmpty then .ok (.arr [], rest)
        else
          match pRun fuel 0 (c :: rest) [] [] with
          | .error e => .error e
          | .ok (v, rest') =>
            match skipWs rest' with
            | ',' :: rest'' => pRun fuel 1 rest'' (acc ++ [v]) []
            | ']' :: rest'' => .ok (.arr (acc ++ [v]), rest'')
            | _ => .error "Expecting comma or closing bracket"
    else
      match skipWs cs with
      | [] => .error "Expecting property name or closing brace"
      | c :: rest =>
        if c = rbrace ∧ facc.isEmpty then .ok (.obj [], rest)
        else if c = '"' then
          match pStringBody [] rest with
          | .error e => .error e
          | .ok (k, rest') =>
            match skipWs rest' with
            | ':' :: rest'' =>
              match pRun fuel 0 rest'' [] [] with
              | .error e => .error e
              | .ok (v, rest3) =>
                match skipWs rest3 with
                | ',' :: rest4 => pRun fuel 2 rest4 [] (setField k v facc)
                | c' :: rest4 =>
                  if c' = rbrace then .ok (.obj (setField k v facc), rest4)
                  else .error "Expecting comma or closing brace"
                | [] => .error "Expecting comma or closing brace"
            | _ => .error "Expecting colon"
        else .error "Expecting property name"

/-- Python `json.loads`: parse one JSON value, requiring only whitespace to
remain afterwards. -/
def json_loads (s : String) : Except String Json :=
  let cs := s.toList
  match pRun (4 * cs.length + 16) 0 cs [] [] with
  | .error e => .error e
  | .ok (v, rest) =>
    match skipWs rest with
    | [] => .ok v
    | _ => .error "Extra data"

/-! ### The parse-and-recover stage of `gen_quiz` (lines 217-238) -/

/-- Lines 217-223 of `gen_quiz`: `text = resp.text.strip()`, then strip a
leading markdown fence (exactly the 7 characters of a json fence opener,
re-stripping) and a trailing fence (3 characters, re-stripping). -/
def stripFences (respText : String) : String :=
  let text := pyStrip respText
  let text := if strHasPrefix "```json" text then pyStrip (text.drop 7) else text
  if strHasSuffix "```" text then pyStrip (text.dropRight 3) else text

/-- The substring the greedy regex `\x7b.*\x7d` (with `re.DOTALL`) matches:
from the first opening brace to the last closing brace, provided the latter
comes after the former; `none` when the regex does not match. -/
def extractBraces (t : String) : Option String :=
  let cs := t.toList
  match cs.findIdx? (· = lbrace) with
  | none => none
  | some i =>
    match cs.reverse.findIdx? (· = rbrace) with
    | none => none
    | some jr =>
      let j := cs.length - 1 - jr
      if i < j then some (String.mk ((cs.drop i).take (j - i + 1)))
      else none

/-- Lines 217-238 of `gen_quiz`: strip fences, try `json.loads`, and on
failure retry exactly once on the brace-extracted substring; if that also
fails (or there is no brace span) raise a `ValueError` carrying the first
500 characters of the text and the FIRST parse failure's reason. -/
def parseQuizText (respText : String) : Except QuizError Json :=
  let text := stripFences respText
  match json_loads text with
  | .ok v => .ok v
  | .error cause =>
    match extractBraces text with
    | some sub =>
      match json_loads sub with
      | .ok v => .ok v
      | .error _ => .error (.parseError (strTake text 500) cause)
    | none => .error (.parseError (strTake text 500) cause)

/-! ### Per-item normalization (`gen_quiz` lines 256-291)

The loop body is split into the sequential steps of the Python code; they are
composed, in source order, by `normalizeItemFields`. -/

/-- Lines 258-259: `question_text` → `question` (`item.pop` then
`item["question"] = ...`). -/
def stepQuestionText (fs : List (String × Json)) : List (String × Json) :=
  match lookupField "question_text" fs with
  | some v => setField "question" v (delField "question_text" fs)
  | none => fs

/-- Lines 260-261: fail if `question` is still absent. -/
def checkQuestion (i : Nat) (fs : List (String × Json)) : Except QuizError Unit :=
  if (lookupField "question" fs).isNone then .error (.schemaError i .missingQuestion)
  else .ok ()

/-- Lines 264-266: a dict-shaped `options` is converted to the list of its
`"A"`, `"B"`, `"C"`, `"D"` values, each defaulting to the empty string. -/
def stepOptionsDict (fs : List (String × Json)) : List (String × Json) :=
  match lookupField "options" fs with
  | some (.obj od) =>
      setField "options"
        (.arr (["A", "B", "C", "D"].map (fun l => (lookupField l od).getD (.str ""))))
        fs
  | _ => fs

/-- Lines 267-268: `options` must be present and `len(options)` must be 4
(`len` itself raising `TypeError` on values without a length). -/
def checkOptions (i : Nat) (fs : List (String × Json)) : Except QuizError Unit :=
  match lookupField "options" fs with
  | none => .error (.schemaError i .badOptions)
  | some ov =>
    match pyLen ov with
    | .error e => .error e
    | .ok n => if n = 4 then .ok () else .error (.schemaError i .badOptions)

/-- Lines 271-277: if `correct_answer` is present, `strip().upper()` it
(an `AttributeError` escapes if it is not a string), test membership with
`corr_ans in "ABCD"` — which in Python is SUBSTRING containment, so the
empty string and e.g. `"AB"` pass — then compute
`answer_index = ord(corr_ans) - ord("A")`, where `ord` raises `TypeError`
unless its argument has exactly one character; finally delete the field.
A non-substring value raises the line-276 `ValueError`. -/
def stepCorrectAnswer (i : Nat) (fs : List (String × Json)) :
    Except QuizError (List (String × Json)) :=
  match lookupField "correct_answer" fs with
  | none => .ok fs
  | some (.str s0) =>
    let ca := pyUpper (pyStrip s0)
    if isSubstr ca "ABCD" then
      match ca.toList with
      | [c] => .ok (delField "correct_answer"
          (setField "answer_index" (.int ((c.toNat : Int) - 65)) fs))
      | _ => .error (.typeError "ord() expected a character")
    else .error (.schemaError i .badCorrectAnswer)
  | some _ => .error (.typeError "object has no attribute strip")

/-- Lines 278-279: `answer_index` must be present, `isinstance(·, int)`
(which accepts `bool`), and lie in `range(4)` under Python numeric
comparison. -/
def checkAnswerIndex (i : Nat) (fs : List (String × Json)) : Except QuizError Unit :=
  match lookupField "answer_index" fs with
  | none => .error (.schemaError i .badAnswerIndex)
  | some av =>
    if pyIsInt av && decide (0 ≤ pyIntOf av) && decide (pyIntOf av < 4) then .ok ()
    else .error (.schemaError i .badAnswerIndex)

/-- Lines 282-285: `question_number` (popped) gives `id = "q" + str(·)`;
otherwise a missing `id` defaults to `"q" + str(i+1)` with `i` the 0-based
loop index. -/
def stepId (i : Nat) (fs : List (String × Json)) : List (String × Json) :=
  let fs := match lookupField "question_number" fs with
    | some qn => setField "id" (.str ("q" ++ pyStr qn)) (delField "question_number" fs)
    | none => fs
  if (lookupField "id" fs).isNone then setField "id" (.str ("q" ++ toString (i + 1))) fs
  else fs

/-- Lines 288-291: default `explanation` to `""` and `tags` to `[]`. -/
def stepDefaults (fs : List (String × Json)) : List (String × Json) :=
  let fs := if (lookupField "explanation" fs).isNone
    then setField "explanation" (.str "") fs else fs
  if (lookupField "tags" fs).isNone then setField "tags" (.arr []) fs else fs

/-- The whole loop body of lines 256-291 for one dict-shaped item at 0-based
index `i`. -/
def normalizeItemFields (i : Nat) (fs : List (String × Json)) :
    Except QuizError (List (String × Json)) := do
  let fs := stepQuestionText fs
  checkQuestion i fs
  let fs := stepOptionsDict fs
  checkOptions i fs
  let fs ← stepCorrectAnswer i fs
  checkAnswerIndex i fs
  pure (stepDefaults (stepId i fs))

/-- The loop body for an arbitrary item value.  A non-dict item makes the
Python code raise: `"question_text" in item` raises `TypeError` for
non-iterable items; a string item uses substring membership, so it either
raises the line-261 `ValueError` (no `"question"` substring), or crashes at
the first dict-only operation. -/
def normalizeOneItem (i : Nat) (item : Json) : Except QuizError Json :=
  match item with
  | .obj fs => (normalizeItemFields i fs).map Json.obj
  | .str s =>
    if isSubstr "question_text" s then .error (.typeError "str does not support item assignment")
    else if isSubstr "question" s then .error (.typeError "str has no attribute get")
    else .error (.schemaError i .missingQuestion)
  | _ => .error (.typeError "argument is not iterable")

/-- The `for i, item in enumerate(quiz_data["items"])` loop starting at
index `k`: items are rewritten in order and the first raised error aborts
the whole call. -/
def normalizeItemsFrom (k : Nat) : List Json → Except QuizError (List Json)
  | [] => .ok []
  | it :: rest => do
    let it' ← normalizeOneItem k it
    let rest' ← normalizeItemsFrom (k + 1) rest
    pure (it' :: rest')

/-- Lines 240-293 of `gen_quiz`: top-level key aliasing, `topic`/`level`
defaults, the `items` shape check, and the per-item loop.  A non-dict
top-level value crashes the Python code with an uncaught
`TypeError` before it can return (`"questions" in quiz_data` is a
`TypeError` for scalars; list and string top-levels crash at the first
subscript such as `quiz_data["topic"] = ...`). -/
def normalizeQuiz (qd : Json) (topicText : String) (difficulty : String) :
    Except QuizError Json :=
  match qd with
  | .obj fs0 => do
    let fs := match lookupField "questions" fs0 with
      | some v => setField "items" v (delField "questions" fs0)
      | none => fs0
    let fs := match lookupField "quiz_name" fs with
      | some v => setField "topic" v (delField "quiz_name" fs)
      | none => fs
    let fs := if (lookupField "topic" fs).isNone then
        setField "topic"
          (.str (if pyStrip topicText = "" then "Kuis Umum" else strTake (pyStrip topicText) 100)) fs
      else fs
    let fs := if (lookupField "level" fs).isNone then setField "level" (.str difficulty) fs
      else fs
    match lookupField "items" fs with
    | some (.arr items) =>
      -- line 253-254: an empty list only triggers a UI warning and is
      -- reassigned as the (equal) empty list
      let fs := if items.length = 0 then setField "items" (.arr []) fs else fs
      let items' ← normalizeItemsFrom 0 items
      pure (Json.obj (setField "items" (.arr items') fs))
    | _ => .error .noItems
  | _ => .error (.typeError "argument is not iterable")

/-- The full pure core of `gen_quiz` (lines 217-293): parse with bounded
recovery, then normalize. -/
def genQuizPure (respText : String) (topicText : String) (difficulty : String) :
    Except QuizError Json :=
  match parseQuizText respText with
  | .ok qd => normalizeQuiz qd topicText difficulty
  | .error e => .error e

/-- The `(index, rule)` pairs a `QuizError` reports: the per-item
`ValueError`s of `gen_quiz` each name exactly one item index and one rule. -/
def reportedViolations : QuizError → List (Nat × Rule)
  | .schemaError i r => [(i, r)]
  | _ => []

/-- The per-item rule violations actually present in an item list: the items
on which the per-item normalization of `gen_quiz` raises its `ValueError`,
together with the violated rule. -/
def itemViolations (items : List Json) : List (Nat × Rule) :=
  items.enum.filterMap (fun p =>
    match normalizeOneItem p.1 p.2 with
    | .error (.schemaError j r) => some (j, r)
    | _ => none)

/-- The ids of a normalized quiz's items (`none` for a non-dict item or a
missing key). -/
def quizItemIds (q : Json) : List (Option Json) :=
  match q with
  | .obj fs =>
    match lookupField "items" fs with
    | some (.arr its) => its.map (fun it =>
        match it with
        | .obj ifs => lookupField "id" ifs
        | _ => none)
    | _ => []
  | _ => []

/-! ### Progress tracking (`update_progress`, lines 313-321)

`st.session_state["progress"]` is a dict with fixed keys, embedded as a
structure; history entries are `{id, correct, level, ts}` dicts.  The
`time.time()` timestamp is threaded in as an explicit argument. -/

/-- One `{"id": ..., "correct": ..., "level": ..., "ts": ...}` history
entry. -/
structure ProgressEntry where
  id : String
  correct : Bool
  level : String
  ts : Nat
deriving Repr, DecidableEq

/-- The `st.session_state["progress"]` dict. -/
structure Progress where
  total_attempts : Nat
  total_correct : Nat
  history : List ProgressEntry
deriving Repr, DecidableEq

/-- The initial progress ledger of `ensure_state` / `reset_all`. -/
def emptyProgress : Progress := ⟨0, 0, []⟩

/-- `update_progress(qid, correct, level)` (lines 313-321): a no-op when some
history entry already carries `qid`; otherwise increment `total_attempts`,
increment `total_correct` when correct, and append the new entry. -/
def update_progress (prog : Progress) (qid : String) (correct : Bool)
    (level : String) (ts : Nat) : Progress :=
  if prog.history.any (fun h => h.id = qid) then prog
  else
    { total_attempts := prog.total_attempts + 1
      total_correct := prog.total_correct + (if correct then 1 else 0)
      history := prog.history ++ [⟨qid, correct, level, ts⟩] }

/-- The ledger invariant of spec §3: the counters agree with the history. -/
def ledgerConsistent (prog : Progress) : Prop :=
  prog.total_attempts = prog.history.length ∧
  prog.total_correct = (prog.history.filter (fun h => h.correct)).length

/-! ### The quiz session state machine (`render_quiz_area`, lines 378-454)

The per-quiz session lives in `st.session_state` as `quiz_idx`, `answers`,
`current_answered`, `current_revealed` plus the progress ledger.  The
transitions are the three buttons; each button's handler only runs when the
button is rendered, which encodes the state-machine guards:

* the whole question area (and with it every button) is only rendered when
  `quiz_idx < len(items)` (lines 391-401 return early otherwise);
* the radio + Submit button render only when `current_answered` is false
  (line 408); when no choice is selected the handler warns and calls
  `st.rerun()` — which raises, so the lines that would mutate state never
  run (lines 418-421);
* the reveal button renders only when answered and not yet revealed
  (lines 437-438); the advance button whenever answered (lines 446-448).

The fields `gen_quiz` guarantees on every item (`id`, `answer_index`) are
the only ones the transitions read, so a session item is embedded as that
pair; `answer_index` stays a `Json` value because normalization can let a
`bool` through. -/

/-- The projection of a quiz item the session transitions use. -/
structure QItem where
  id : String
  answer_index : Json
deriving Repr

/-- The session-state fields of `render_quiz_area`. -/
structure SessionSt where
  quiz_idx : Nat
  answers : List (String × Int)
  current_answered : Bool
  current_revealed : Bool
  progress : Progress
deriving Repr

/-- The session state installed when a quiz is created (lines 369-373):
index 0, no answers, flags cleared; the progress ledger persists. -/
def freshSession (prog : Progress) : SessionSt :=
  { quiz_idx := 0, answers := [], current_answered := false,
    current_revealed := false, progress := prog }

/-- Python `answers[id] = choice` on the answers dict. -/
def setAnswer (k : String) (v : Int) : List (String × Int) → List (String × Int)
  | [] => [(k, v)]
  | (k', v') :: fs => if k' = k then (k', v) :: fs else (k', v') :: setAnswer k v fs

/-- The spec's session phases. -/
inductive Phase where
  | Unanswered : Phase
  | Answered : Phase
  | Revealed : Phase
  | Completed : Phase
deriving Repr, DecidableEq

/-- The phase of a session: `Completed` iff `quiz_idx >= len(items)`
(line 391), otherwise determined by the two flags. -/
def phase (items : List QItem) (s : SessionSt) : Phase :=
  if s.quiz_idx ≥ items.length then .Completed
  else if ¬ s.current_answered then .Unanswered
  else if ¬ s.current_revealed then .Answered
  else .Revealed

/-- The Submit button (lines 417-427).  With no selected choice the handler
only warns and reruns (no mutation).  Otherwise it stores the answer,
records progress with `correct = (choice == answer_index)`, and sets the
flags. -/
def submit (items : List QItem) (difficulty : String) (ts : Nat)
    (s : SessionSt) (choice : Option Int) : SessionSt :=
  if s.quiz_idx ≥ items.length then s
  else if s.current_answered then s
  else
    match choice with
    | none => s
    | some c =>
      match items[s.quiz_idx]? with
      | none => s
      | some item =>
        { s with
          answers := setAnswer item.id c s.answers
          progress := update_progress s.progress item.id (pyEqNum c item.answer_index)
            difficulty ts
          current_answered := true
          current_revealed := false }

/-- The reveal button (lines 437-440). -/
def reveal (items : List QItem) (s : SessionSt) : SessionSt :=
  if s.quiz_idx ≥ items.length then s
  else if ¬ s.current_answered then s
  else if s.current_revealed then s
  else { s with current_revealed := true }

/-- The advance button (lines 446-454). -/
def advance (items : List QItem) (s : SessionSt) : SessionSt :=
  if s.quiz_idx ≥ items.length then s
  else if ¬ s.current_answered then s
  else { s with quiz_idx := s.quiz_idx + 1, current_answered := false,
                current_revealed := false }

/-! ### Canonical-form predicates (for the round-trip claim)

These predicates transcribe the spec's canonical schema (§3); they define
the hypothesis class of the round-trip claim and are compared against the
source-derived normalization functions. -/

/-- Is this value a JSON string? -/
def isStr : Json → Bool
  | .str _ => true
  | _ => false

/-- A present, non-empty string field. -/
def isNonemptyStrOpt : Option Json → Bool
  | some (.str q) => decide (q ≠ "")
  | _ => false

/-- A present 4-element list of strings. -/
def isOpts4 : Option Json → Bool
  | some (.arr os) => decide (os.length = 4) && os.all isStr
  | _ => false

/-- A present integer in `[0,3]`. -/
def isIdx03 : Option Json → Bool
  | some (.int n) => decide (0 ≤ n) && decide (n < 4)
  | _ => false

/-- A present string field. -/
def isStrOpt : Option Json → Bool
  | some v => isStr v
  | none => false

/-- A present list-of-strings field. -/
def isStrListOpt : Option Json → Bool
  | some (.arr ts) => ts.all isStr
  | _ => false

/-- A canonical quiz item per spec §3: `id`, non-empty `question`, exactly
four string `options`, integer `answer_index` in `[0,3]`, `explanation` and
`tags` all present, and none of the alias keys
(`question_text`/`correct_answer`/`question_number`) present. -/
def isCanonicalItem (fs : List (String × Json)) : Bool :=
  (lookupField "question_text" fs).isNone &&
  isNonemptyStrOpt (lookupField "question" fs) &&
  isOpts4 (lookupField "options" fs) &&
  (lookupField "correct_answer" fs).isNone &&
  isIdx03 (lookupField "answer_index" fs) &&
  (lookupField "question_number" fs).isNone &&
  isStrOpt (lookupField "id" fs) &&
  isStrOpt (lookupField "explanation" fs) &&
  isStrListOpt (lookupField "tags" fs)

/-- A canonical item value: a dict with canonical fields. -/
def isCanonicalItemJson : Json → Bool
  | .obj ifs => isCanonicalItem ifs
  | _ => false

/-- A present list of canonical items. -/
def isItemsCanonical : Option Json → Bool
  | some (.arr its) => its.all isCanonicalItemJson
  | _ => false

/-- A canonical quiz per spec §3: `topic` and `level` present, no top-level
alias keys, and a list of canonical items. -/
def isCanonicalQuiz (q : Json) : Bool :=
  match q with
  | .obj fs =>
    (lookupField "questions" fs).isNone &&
    (lookupField "quiz_name" fs).isNone &&
    (lookupField "topic" fs).isSome &&
    (lookupField "level" fs).isSome &&
    isItemsCanonical (lookupField "items" fs)
  | _ => false

/-! ### Concrete example inputs -/

/-- A canonical 4-string options list. -/
def opts4 : Json := .arr [.str "w", .str "x", .str "y", .str "z"]

/-- A canonical item. -/
def canonItemFields : List (String × Json) :=
  [("id", .str "q1"), ("question", .str "Q?"), ("options", opts4),
   ("answer_index", .int 2), ("explanation", .str "e"), ("tags", .arr [.str "t"])]

/-- A canonical quiz with one item. -/
def canonQuiz : Json :=
  .obj [("topic", .str "T"), ("level", .str "easy"),
        ("items", .arr [.obj canonItemFields])]

/-- An item violating the options rule (three options). -/
def threeOptItem : Json :=
  .obj [("question", .str "Q0"), ("options", .arr [.str "a", .str "b", .str "c"]),
        ("answer_index", .int 0)]

/-- An item violating the answer-index rule (`answer_index = 5`). -/
def idx5Item : Json :=
  .obj [("question", .str "Q1"), ("options", opts4), ("answer_index", .int 5)]

/-- A quiz whose two items each violate a different rule. -/
def twoBadQuiz : Json :=
  .obj [("topic", .str "T"), ("level", .str "easy"),
        ("items", .arr [threeOptItem, idx5Item])]

/-- A quiz whose two (individually canonical) items share the id `"q1"`. -/
def dupIdQuiz : Json :=
  .obj [("topic", .str "T"), ("level", .str "easy"),
        ("items", .arr [.obj canonItemFields, .obj canonItemFields])]

/-- An otherwise-valid item with the given `correct_answer` value. -/
def caItemFields (s : String) : List (String × Json) :=
  [("question", .str "Q"), ("options", opts4), ("correct_answer", .str s)]

/-- An otherwise-valid item whose `answer_index` is a boolean. -/
def boolIdxFields (b : Bool) : List (String × Json) :=
  [("question", .str "Q"), ("options", opts4), ("answer_index", .bool b)]

/-- Running one `submit → reveal → advance` round three times from a fresh
session. -/
def sessionAfter3 (items : List QItem) (diff : String) (t1 t2 t3 : Nat)
    (c1 c2 c3 : Int) (prog : Progress) : SessionSt :=
  advance items (reveal items (submit items diff t3
    (advance items (reveal items (submit items diff t2
      (advance items (reveal items (submit items diff t1
        (freshSession prog) (some c1)))) (some c2)))) (some c3)))

/-! ### Helper lemmas about dict operations and normalization steps -/

theorem lookup_set_self (k : String) (v : Json) (fs : List (String × Json)) :
    lookupField k (setField k v fs) = some v := by
  induction fs with
  | nil => simp [setField, lookupField]
  | cons f fs ih =>
    obtain ⟨k', v'⟩ := f
    by_cases h : k' = k
    · simp [setField, lookupField, h]
    · simp [setField, lookupField, h, ih]

theorem lookup_set_ne (k k' : String) (hk : k ≠ k') (v : Json)
    (fs : List (String × Json)) :
    lookupField k (setField k' v fs) = lookupField k fs := by
  induction fs with
  | nil => simp [setField, lookupField, Ne.symm hk]
  | cons f fs ih =>
    obtain ⟨k0, v0⟩ := f
    by_cases h : k0 = k'
    · subst h
      simp [setField, lookupField, Ne.symm hk]
    · simp [setField, lookupField, h, ih]

theorem lookup_del_ne (k k' : String) (hk : k ≠ k') (fs : List (String × Json)) :
    lookupField k (delField k' fs) = lookupField k fs := by
  induction fs with
  | nil => simp [delField, lookupField]
  | cons f fs ih =>
    obtain ⟨k0, v0⟩ := f
    by_cases h : k0 = k'
    · subst h
      simp [delField, lookupField, Ne.symm hk, ih]
    · simp [delField, lookupField, h, ih]

theorem set_self_of_lookup (k : String) (v : Json) (fs : List (String × Json))
    (h : lookupField k fs = some v) : setField k v fs = fs := by
  induction fs with
  | nil => simp [lookupField] at h
  | cons f fs ih =>
    obtain ⟨k0, v0⟩ := f
    by_cases hk : k0 = k
    · simp only [lookupField, if_pos hk] at h
      simp [setField, hk, Option.some.injEq] at h ⊢
      exact h.symm
    · simp only [lookupField, if_neg hk] at h
      simp [setField, hk, ih h]

theorem stepQuestionText_of_none (fs : List (String × Json))
    (h : lookupField "question_text" fs = none) : stepQuestionText fs = fs := by
  simp [stepQuestionText, h]

theorem lookup_stepQuestionText (k : String) (h1 : k ≠ "question")
    (h2 : k ≠ "question_text") (fs : List (String × Json)) :
    lookupField k (stepQuestionText fs) = lookupField k fs := by
  unfold stepQuestionText
  cases hqt : lookupField "question_text" fs with
  | none => rfl
  | some v => rw [lookup_set_ne k _ h1, lookup_del_ne k _ h2]

theorem lookup_stepOptionsDict (k : String) (h1 : k ≠ "options")
    (fs : List (String × Json)) :
    lookupField k (stepOptionsDict fs) = lookupField k fs := by
  unfold stepOptionsDict
  cases hop : lookupField "options" fs with
  | none => rfl
  | some v =>
    cases v with
    | obj od => rw [lookup_set_ne k _ h1]
    | null => rfl
    | bool b => rfl
    | int n => rfl
    | float f => rfl
    | str s => rfl
    | arr xs => rfl

theorem lookup_stepCorrectAnswer (i : Nat) (k : String) (h1 : k ≠ "answer_index")
    (h2 : k ≠ "correct_answer") (fs fs' : List (String × Json))
    (h : stepCorrectAnswer i fs = .ok fs') :
    lookupField k fs' = lookupField k fs := by
  unfold stepCorrectAnswer at h
  cases hca : lookupField "correct_answer" fs with
  | none =>
    rw [hca] at h
    cases h
    rfl
  | some v =>
    rw [hca] at h
    cases v with
    | str s0 =>
      by_cases hsub : isSubstr (pyUpper (pyStrip s0)) "ABCD" = true
      · simp only [hsub, if_pos] at h
        cases hl : (pyUpper (pyStrip s0)).toList with
        | nil => rw [hl] at h; cases h
        | cons c cs =>
          cases cs with
          | nil =>
            rw [hl] at h
            cases h
            rw [lookup_del_ne k _ h2, lookup_set_ne k _ h1]
          | cons c2 cs2 => rw [hl] at h; cases h
      · simp only [Bool.not_eq_true] at hsub
        simp only [hsub, Bool.false_eq_true, if_false] at h
        cases h
    | null => cases h
    | bool b => cases h
    | int n => cases h
    | float f => cases h
    | arr xs => cases h
    | obj o => cases h

theorem stepId_of_has_id (i : Nat) (fs : List (String × Json))
    (hqn : lookupField "question_number" fs = none)
    (hid : (lookupField "id" fs).isSome = true) : stepId i fs = fs := by
  unfold stepId
  rw [hqn]
  cases hcase : lookupField "id" fs with
  | none => rw [hcase] at hid; simp at hid
  | some v => simp [hcase]

theorem lookup_stepId (i : Nat) (k : String) (h1 : k ≠ "id")
    (h2 : k ≠ "question_number") (fs : List (String × Json)) :
    lookupField k (stepId i fs) = lookupField k fs := by
  unfold stepId
  cases hqn : lookupField "question_number" fs with
  | none =>
    by_cases hid : (lookupField "id" fs).isNone = true
    · simp only [hid, if_pos]
      rw [lookup_set_ne k _ h1]
    · simp only [hid, Bool.false_eq_true, if_false]
  | some qn =>
    by_cases hid : (lookupField "id"
        (setField "id" (.str ("q" ++ pyStr qn)) (delField "question_number" fs))).isNone = true
    · simp only [hid, if_pos]
      rw [lookup_set_ne k _ h1, lookup_set_ne k _ h1, lookup_del_ne k _ h2]
    · simp only [hid, Bool.false_eq_true, if_false]
      rw [lookup_set_ne k _ h1, lookup_del_ne k _ h2]

theorem lookup_stepDefaults (k : String) (h1 : k ≠ "explanation")
    (h2 : k ≠ "tags") (fs : List (String × Json)) :
    lookupField k (stepDefaults fs) = lookupField k fs := by
  unfold stepDefaults
  by_cases hex : (lookupField "explanation" fs).isNone = true
  · by_cases htg : (lookupField "tags" (setField "explanation" (.str "") fs)).isNone = true
    · simp only [hex, htg, if_pos]
      rw [lookup_set_ne k _ h2, lookup_set_ne k _ h1]
    · simp only [hex, if_pos, htg, Bool.false_eq_true, if_false]
      rw [lookup_set_ne k _ h1]
  · by_cases htg : (lookupField "tags" fs).isNone = true
    · simp only [hex, Bool.false_eq_true, if_false, htg, if_pos]
      rw [lookup_set_ne k _ h2]
    · simp only [hex, htg, Bool.false_eq_true, if_false]

theorem checkQuestion_of_present (i : Nat) (fs : List (String × Json))
    (h : isNonemptyStrOpt (lookupField "question" fs) = true) :
    checkQuestion i fs = .ok () := by
  unfold checkQuestion
  cases hq : lookupField "question" fs with
  | none => rw [hq] at h; simp [isNonemptyStrOpt] at h
  | some v => simp

theorem stepOptionsDict_of_arr (fs : List (String × Json))
    (h : isOpts4 (lookupField "options" fs) = true) : stepOptionsDict fs = fs := by
  unfold stepOptionsDict
  cases hop : lookupField "options" fs with
  | none => rfl
  | some v =>
    rw [hop] at h
    cases v <;> simp_all [isOpts4]

theorem checkOptions_of_arr4 (i : Nat) (fs : List (String × Json))
    (h : isOpts4 (lookupField "options" fs) = true) : checkOptions i fs = .ok () := by
  unfold checkOptions
  cases hop : lookupField "options" fs with
  | none => rw [hop] at h; simp [isOpts4] at h
  | some v =>
    rw [hop] at h
    cases v <;> simp_all [isOpts4, pyLen]

theorem stepCorrectAnswer_of_none (i : Nat) (fs : List (String × Json))
    (h : lookupField "correct_answer" fs = none) :
    stepCorrectAnswer i fs = .ok fs := by
  simp [stepCorrectAnswer, h]

theorem checkAnswerIndex_of_idx (i : Nat) (fs : List (String × Json))
    (h : isIdx03 (lookupField "answer_index" fs) = true) :
    checkAnswerIndex i fs = .ok () := by
  unfold checkAnswerIndex
  cases hai : lookupField "answer_index" fs with
  | none => rw [hai] at h; simp [isIdx03] at h
  | some v =>
    rw [hai] at h
    cases v <;> simp_all [isIdx03, pyIsInt, pyIntOf]

theorem stepDefaults_of_present (fs : List (String × Json))
    (hex : (lookupField "explanation" fs).isSome = true)
    (htg : (lookupField "tags" fs).isSome = true) : stepDefaults fs = fs := by
  unfold stepDefaults
  have h1 : (lookupField "explanation" fs).isNone = false := by
    cases h : lookupField "explanation" fs
    · rw [h] at hex; simp at hex
    · rfl
  have h2 : (lookupField "tags" fs).isNone = false := by
    cases h : lookupField "tags" fs
    · rw [h] at htg; simp at htg
    · rfl
  simp [h1, h2]

theorem isSome_of_isStrOpt (o : Option Json) (h : isStrOpt o = true) :
    o.isSome = true := by
  cases o with
  | none => simp [isStrOpt] at h
  | some v => rfl

theorem isSome_of_isStrListOpt (o : Option Json) (h : isStrListOpt o = true) :
    o.isSome = true := by
  cases o with
  | none => simp [isStrListOpt] at h
  | some v => rfl

/-- A canonical item is a fixed point of the per-item loop body: every
rewrite step is a no-op and every check passes. -/
theorem canonicalItem_fixed (i : Nat) (fs : List (String × Json))
    (h : isCanonicalItem fs = true) : normalizeItemFields i fs = .ok fs := by
  simp only [isCanonicalItem, Bool.and_eq_true] at h
  obtain ⟨⟨⟨⟨⟨⟨⟨⟨hqt, hq⟩, hop⟩, hca⟩, hai⟩, hqn⟩, hid⟩, hex⟩, htg⟩ := h
  rw [Option.isNone_iff_eq_none] at hqt hca hqn
  have e1 := stepQuestionText_of_none fs hqt
  have e2 := checkQuestion_of_present i fs hq
  have e3 := stepOptionsDict_of_arr fs hop
  have e4 := checkOptions_of_arr4 i fs hop
  have e5 := stepCorrectAnswer_of_none i fs hca
  have e6 := checkAnswerIndex_of_idx i fs hai
  have e7 := stepId_of_has_id i fs hqn (isSome_of_isStrOpt _ hid)
  have e8 := stepDefaults_of_present fs (isSome_of_isStrOpt _ hex)
    (isSome_of_isStrListOpt _ htg)
  simp only [normalizeItemFields, e1, e2, e3, e4, e5, e6, e7, e8, Bind.bind,
    Except.bind, Pure.pure, Except.pure]

/-- A list of canonical items passes the loop unchanged. -/
theorem normalizeItems_canonical (its : List Json)
    (h : its.all isCanonicalItemJson = true) :
    ∀ k, normalizeItemsFrom k its = .ok its := by
  induction its with
  | nil => intro k; rfl
  | cons a as ih =>
    intro k
    rw [List.all_cons, Bool.and_eq_true] at h
    obtain ⟨ha, has⟩ := h
    cases a with
    | obj ifs =>
      have h1 := canonicalItem_fixed k ifs (by simpa [isCanonicalItemJson] using ha)
      have h2 : normalizeOneItem k (.obj ifs) = .ok (.obj ifs) := by
        simp only [normalizeOneItem]
        rw [h1]
        rfl
      unfold normalizeItemsFrom
      rw [h2, ih has (k + 1)]
      rfl
    | null => simp [isCanonicalItemJson] at ha
    | bool b => simp [isCanonicalItemJson] at ha
    | int n => simp [isCanonicalItemJson] at ha
    | float f => simp [isCanonicalItemJson] at ha
    | str s => simp [isCanonicalItemJson] at ha
    | arr xs => simp [isCanonicalItemJson] at ha

theorem items_of_isItemsCanonical (o : Option Json) (h : isItemsCanonical o = true) :
    ∃ its, o = some (.arr its) ∧ its.all isCanonicalItemJson = true := by
  cases o with
  | none => simp [isItemsCanonical] at h
  | some v =>
    cases v with
    | arr its => exact ⟨its, rfl, h⟩
    | null => simp [isItemsCanonical] at h
    | bool b => simp [isItemsCanonical] at h
    | int n => simp [isItemsCanonical] at h
    | float f => simp [isItemsCanonical] at h
    | str s => simp [isItemsCanonical] at h
    | obj fs => simp [isItemsCanonical] at h

theorem isNone_false_of_isSome (o : Option Json) (h : o.isSome = true) :
    o.isNone = false := by
  cases o with
  | none => simp at h
  | some v => rfl

/-- The per-item loop stops at the first item whose normalization raises:
if every item of `pre` normalizes, and `bad` raises `e`, the loop on
`pre ++ bad :: post` raises `e` (whatever follows is never reached). -/
theorem normalizeItemsFrom_firstError (e : QuizError) :
    ∀ (pre : List Json) (k : Nat) (bad : Json) (post : List Json),
    (∀ j : Fin pre.length, (normalizeOneItem (k + j.1) (pre.get j)).isOk = true) →
    normalizeOneItem (k + pre.length) bad = .error e →
    normalizeItemsFrom k (pre ++ bad :: post) = .error e := by
  intro pre
  induction pre with
  | nil =>
    intro k bad post hok hbad
    simp only [List.length_nil, Nat.add_zero] at hbad
    unfold normalizeItemsFrom
    simp [hbad, Bind.bind, Except.bind]
  | cons a as ih =>
    intro k bad post hok hbad
    have ha := hok ⟨0, by simp⟩
    simp only [List.get, Nat.add_zero] at ha
    obtain ⟨a', ha'⟩ : ∃ a', normalizeOneItem k a = .ok a' := by
      cases h : normalizeOneItem k a with
      | ok x => exact ⟨x, rfl⟩
      | error e2 => rw [h] at ha; simp [Except.isOk, Except.toBool] at ha
    have htail : ∀ j : Fin as.length,
        (normalizeOneItem (k + 1 + j.1) (as.get j)).isOk = true := by
      intro j
      have h := hok ⟨j.1 + 1, by simp [Nat.succ_lt_succ j.2]⟩
      have harith : k + (j.1 + 1) = k + 1 + j.1 := by omega
      simpa [List.get, harith] using h
    have hbad' : normalizeOneItem (k + 1 + as.length) bad = .error e := by
      have harith : k + (a :: as).length = k + 1 + as.length := by
        simp [List.length_cons]
        omega
      rw [harith] at hbad
      exact hbad
    have htl := ih (k + 1) bad post htail hbad'
    show normalizeItemsFrom k (a :: (as ++ bad :: post)) = .error e
    unfold normalizeItemsFrom
    rw [ha', htl]
    rfl

/-! ### The claims -/

/-- C1 (corrected: the validation pass short-circuits).  When the items list
is `pre ++ bad :: post` with every item of `pre` normalizing fine and `bad`
raising a schema violation, `gen_quiz`'s normalization fails with the
`SchemaError` naming that first violating item's index and rule alone —
later items are never examined. -/
theorem claim_C1 (fs : List (String × Json)) (tt lvl : String)
    (pre post : List Json) (bad : Json) (i : Nat) (r : Rule)
    (hqs : lookupField "questions" fs = none)
    (hqnm : lookupField "quiz_name" fs = none)
    (htp : (lookupField "topic" fs).isSome = true)
    (hlv : (lookupField "level" fs).isSome = true)
    (hits : lookupField "items" fs = some (.arr (pre ++ bad :: post)))
    (hok : ∀ j : Fin pre.length, (normalizeOneItem j.1 (pre.get j)).isOk = true)
    (hbad : normalizeOneItem pre.length bad = .error (.schemaError i r)) :
    normalizeQuiz (.obj fs) tt lvl = .error (.schemaError i r) ∧
    reportedViolations (.schemaError i r) = [(i, r)] := by
  constructor
  · have hloop := normalizeItemsFrom_firstError (.schemaError i r) pre 0 bad post
      (by intro j; simpa [Nat.zero_add] using hok j)
      (by simpa [Nat.zero_add] using hbad)
    have htp' := isNone_false_of_isSome _ htp
    have hlv' := isNone_false_of_isSome _ hlv
    unfold normalizeQuiz
    simp only [hqs, hqnm, htp', hlv', Bool.false_eq_true, if_false, hits]
    rw [if_neg (by simp)]
    simp only [hloop, Bind.bind, Except.bind]
  · rfl

/-- C1, the claim as stated is false: on a quiz whose item 0 has three
options and whose item 1 has `answer_index = 5`, the error reports only
item 0's violation even though item 1 violates another rule. -/
theorem claim_C1_cex :
    normalizeQuiz twoBadQuiz "t" "easy" = .error (.schemaError 0 .badOptions) ∧
    itemViolations [threeOptItem, idx5Item] =
      [(0, .badOptions), (1, .badAnswerIndex)] ∧
    reportedViolations (.schemaError 0 .badOptions) = [(0, .badOptions)] :=
  ⟨rfl, rfl, rfl⟩

/-- C1 witness: a concrete quiz with one fine item followed by a violating
one fails with the `SchemaError` for index 1. -/
theorem claim_C1_witness :
    normalizeQuiz (.obj [("topic", .str "T"), ("level", .str "easy"),
        ("items", .arr [.obj canonItemFields, threeOptItem])]) "t" "easy" =
      .error (.schemaError 1 .badOptions) ∧
    reportedViolations (.schemaError 1 .badOptions) = [(1, .badOptions)] :=
  claim_C1 [("topic", .str "T"), ("level", .str "easy"),
      ("items", .arr [.obj canonItemFields, threeOptItem])] "t" "easy"
    [.obj canonItemFields] [] threeOptItem 1 .badOptions
    rfl rfl rfl rfl rfl (by intro j; fin_cases j; rfl) rfl

/-- C2 (the code is buggy here): after `strip().upper()`, the membership
test is `corr_ans in "ABCD"` — Python substring containment — so the four
single letters map to indices 0-3 with the field removed (first conjunct,
`"  a "` ↦ 0), but the empty string and two-letter substrings such as
`"AB"` pass the test and then crash `ord()` with an uncaught `TypeError`
instead of the claimed `SchemaError`; only non-substrings such as `"E"`
reach the `SchemaError` raise. -/
theorem claim_C2 :
    normalizeItemFields 0 (caItemFields "  a ") =
      .ok [("question", .str "Q"), ("options", opts4), ("answer_index", .int 0),
           ("id", .str "q1"), ("explanation", .str ""), ("tags", .arr [])] ∧
    normalizeItemFields 0 (caItemFields "AB") =
      .error (.typeError "ord() expected a character") ∧
    normalizeItemFields 0 (caItemFields "") =
      .error (.typeError "ord() expected a character") ∧
    normalizeItemFields 0 (caItemFields "E") =
      .error (.schemaError 0 .badCorrectAnswer) :=
  ⟨rfl, rfl, rfl, rfl⟩

/-- C3 (corrected: no uniqueness check exists).  Normalization preserves an
item's existing `id` verbatim (when no `question_number` overrides it), so
duplicate ids in the input survive normalization without any error. -/
theorem claim_C3 (i : Nat) (fs fs' : List (String × Json))
    (hqn : lookupField "question_number" fs = none)
    (hid : (lookupField "id" fs).isSome = true)
    (h : normalizeItemFields i fs = .ok fs') :
    lookupField "id" fs' = lookupField "id" fs := by
  unfold normalizeItemFields at h
  simp only [Bind.bind, Except.bind] at h
  cases hc1 : checkQuestion i (stepQuestionText fs) with
  | error e => simp only [hc1] at h; cases h
  | ok u =>
    simp only [hc1] at h
    cases hc2 : checkOptions i (stepOptionsDict (stepQuestionText fs)) with
    | error e => simp only [hc2] at h; cases h
    | ok u2 =>
      simp only [hc2] at h
      cases hsca : stepCorrectAnswer i (stepOptionsDict (stepQuestionText fs)) with
      | error e => simp only [hsca] at h; cases h
      | ok fs3 =>
        simp only [hsca] at h
        cases hc3 : checkAnswerIndex i fs3 with
        | error e => simp only [hc3] at h; cases h
        | ok u3 =>
          simp only [hc3, Pure.pure, Except.pure, Except.ok.injEq] at h
          subst h
          have hqn3 : lookupField "question_number" fs3 = none := by
            rw [lookup_stepCorrectAnswer i _ (by decide) (by decide) _ _ hsca,
              lookup_stepOptionsDict _ (by decide),
              lookup_stepQuestionText _ (by decide) (by decide)]
            exact hqn
          have hid3 : (lookupField "id" fs3).isSome = true := by
            rw [lookup_stepCorrectAnswer i _ (by decide) (by decide) _ _ hsca,
              lookup_stepOptionsDict _ (by decide),
              lookup_stepQuestionText _ (by decide) (by decide)]
            exact hid
          rw [lookup_stepDefaults _ (by decide) (by decide),
            stepId_of_has_id i _ hqn3 hid3,
            lookup_stepCorrectAnswer i _ (by decide) (by decide) _ _ hsca,
            lookup_stepOptionsDict _ (by decide),
            lookup_stepQuestionText _ (by decide) (by decide)]

/-- C3, the claim as stated is false: a raw quiz whose two items both carry
`id = "q1"` normalizes successfully (indeed unchanged) into a quiz with two
identical item ids. -/
theorem claim_C3_cex :
    normalizeQuiz dupIdQuiz "t" "easy" = .ok dupIdQuiz ∧
    quizItemIds dupIdQuiz = [some (.str "q1"), some (.str "q1")] :=
  ⟨rfl, rfl⟩

/-- C3 witness: the preservation theorem applied to a concrete item that
already carries an id. -/
theorem claim_C3_witness :
    lookupField "id" canonItemFields = lookupField "id" canonItemFields :=
  claim_C3 0 canonItemFields canonItemFields rfl rfl rfl

/-- C4: `update_progress` is first-write-wins idempotent — an `item_id`
already present in the history makes the call return the ledger unchanged;
in particular recording `("q1", true)` then `("q1", false)` leaves
`total_attempts = 1` and `total_correct = 1`. -/
theorem claim_C4 :
    (∀ (prog : Progress) (qid : String) (c : Bool) (lvl : String) (ts : Nat),
      prog.history.any (fun h => h.id = qid) = true →
      update_progress prog qid c lvl ts = prog) ∧
    (update_progress (update_progress emptyProgress "q1" true "easy" 0)
      "q1" false "easy" 1).total_attempts = 1 ∧
    (update_progress (update_progress emptyProgress "q1" true "easy" 0)
      "q1" false "easy" 1).total_correct = 1 := by
  refine ⟨?_, rfl, rfl⟩
  intro prog qid c lvl ts h
  unfold update_progress
  rw [if_pos h]

/-- C4 witness: recording a duplicate id on a concrete ledger is a no-op. -/
theorem claim_C4_witness :
    update_progress ⟨1, 1, [⟨"q1", true, "easy", 0⟩]⟩ "q1" false "easy" 5 =
      ⟨1, 1, [⟨"q1", true, "easy", 0⟩]⟩ :=
  claim_C4.1 ⟨1, 1, [⟨"q1", true, "easy", 0⟩]⟩ "q1" false "easy" 5 rfl

/-- C5: `update_progress` preserves the counter/history consistency
invariant: if `total_attempts` equals the history length and
`total_correct` the number of correct entries, the same holds after any
record call. -/
theorem claim_C5 (prog : Progress) (qid : String) (c : Bool) (lvl : String)
    (ts : Nat) (h : ledgerConsistent prog) :
    ledgerConsistent (update_progress prog qid c lvl ts) := by
  obtain ⟨h1, h2⟩ := h
  unfold update_progress
  by_cases hd : prog.history.any (fun h => h.id = qid) = true
  · rw [if_pos hd]
    exact ⟨h1, h2⟩
  · rw [if_neg hd]
    constructor
    · simp [ledgerConsistent, h1]
    · simp only [ledgerConsistent, List.filter_append]
      cases c <;> simp [h2, List.filter]

/-- C5 witness: the invariant is preserved on a concrete record call. -/
theorem claim_C5_witness :
    ledgerConsistent (update_progress emptyProgress "q1" true "easy" 0) :=
  claim_C5 emptyProgress "q1" true "easy" 0 ⟨rfl, rfl⟩

/-- C6: a submit with no selected choice in the `Unanswered` phase is
refused without corrupting state: the whole session state — phase, current
index, answers map and progress ledger — is unchanged. -/
theorem claim_C6 (items : List QItem) (diff : String) (ts : Nat) (s : SessionSt)
    (h : phase items s = .Unanswered) :
    submit items diff ts s none = s ∧
    phase items (submit items diff ts s none) = .Unanswered ∧
    (submit items diff ts s none).quiz_idx = s.quiz_idx ∧
    (submit items diff ts s none).answers = s.answers ∧
    (submit items diff ts s none).progress = s.progress := by
  have hs : submit items diff ts s none = s := by
    unfold submit
    split_ifs <;> rfl
  refine ⟨hs, ?_, ?_, ?_, ?_⟩ <;> rw [hs]
  exact h

/-- C6 witness: the refused submit on a concrete fresh session. -/
theorem claim_C6_witness :
    submit [⟨"q1", Json.int 0⟩] "easy" 0 (freshSession emptyProgress) none =
      freshSession emptyProgress ∧
    phase [⟨"q1", Json.int 0⟩]
      (submit [⟨"q1", Json.int 0⟩] "easy" 0 (freshSession emptyProgress) none) =
      .Unanswered ∧
    (submit [⟨"q1", Json.int 0⟩] "easy" 0 (freshSession emptyProgress)
      none).quiz_idx = (freshSession emptyProgress).quiz_idx ∧
    (submit [⟨"q1", Json.int 0⟩] "easy" 0 (freshSession emptyProgress)
      none).answers = (freshSession emptyProgress).answers ∧
    (submit [⟨"q1", Json.int 0⟩] "easy" 0 (freshSession emptyProgress)
      none).progress = (freshSession emptyProgress).progress :=
  claim_C6 [⟨"q1", Json.int 0⟩] "easy" 0 (freshSession emptyProgress) rfl

/-- C7: the parse stage is a single bounded retry.  A successful direct
parse is returned as-is; on a direct-parse failure the brace-extracted
substring is parsed exactly once and its success returned; if it too fails,
or no brace span exists, the result is a `ParseError` carrying the first
500 characters of the (fence-stripped) text and the first failure's
reason. -/
theorem claim_C7 :
    (∀ t v, json_loads (stripFences t) = .ok v → parseQuizText t = .ok v) ∧
    (∀ t cause sub v, json_loads (stripFences t) = .error cause →
      extractBraces (stripFences t) = some sub → json_loads sub = .ok v →
      parseQuizText t = .ok v) ∧
    (∀ t cause sub c2, json_loads (stripFences t) = .error cause →
      extractBraces (stripFences t) = some sub → json_loads sub = .error c2 →
      parseQuizText t = .error (.parseError (strTake (stripFences t) 500) cause)) ∧
    (∀ t cause, json_loads (stripFences t) = .error cause →
      extractBraces (stripFences t) = none →
      parseQuizText t = .error (.parseError (strTake (stripFences t) 500) cause)) := by
  refine ⟨?_, ?_, ?_, ?_⟩
  · intro t v h
    unfold parseQuizText
    simp only [h]
  · intro t cause sub v h1 h2 h3
    unfold parseQuizText
    simp only [h1, h2, h3]
  · intro t cause sub c2 h1 h2 h3
    unfold parseQuizText
    simp only [h1, h2, h3]
  · intro t cause h1 h2
    unfold parseQuizText
    simp only [h1, h2]

/-- C7 witness: `"not json at all"` has no brace span, so it fails with a
`ParseError` carrying the whole (short) text and the parse failure
reason. -/
theorem claim_C7_witness :
    parseQuizText "not json at all" =
      .error (.parseError "not json at all" "Expecting value") :=
  claim_C7.2.2.2 "not json at all" "Expecting value" rfl rfl

/-- C8: normalization is the identity on canonical input — a quiz already
in the canonical schema is returned unchanged, whatever the fallback topic
and level arguments are. -/
theorem claim_C8 (q : Json) (h : isCanonicalQuiz q = true) (tt lvl : String) :
    normalizeQuiz q tt lvl = .ok q := by
  cases q with
  | obj fs =>
    simp only [isCanonicalQuiz, Bool.and_eq_true] at h
    obtain ⟨⟨⟨⟨hqs, hqnm⟩, htp⟩, hlv⟩, hits⟩ := h
    rw [Option.isNone_iff_eq_none] at hqs hqnm
    obtain ⟨its, hitsEq, hall⟩ := items_of_isItemsCanonical _ hits
    have htp' := isNone_false_of_isSome _ htp
    have hlv' := isNone_false_of_isSome _ hlv
    have hnorm := normalizeItems_canonical its hall 0
    unfold normalizeQuiz
    simp only [hqs, hqnm, htp', hlv', Bool.false_eq_true, if_false, hitsEq, hnorm,
      Bind.bind, Except.bind, Pure.pure, Except.pure]
    by_cases hlen : its.length = 0
    · have hnil : its = [] := List.length_eq_zero.mp hlen
      subst hnil
      simp only [List.length_nil, if_pos]
      rw [set_self_of_lookup _ _ _ hitsEq, set_self_of_lookup _ _ _ hitsEq]
    · rw [if_neg hlen, set_self_of_lookup _ _ _ hitsEq]
  | null => simp [isCanonicalQuiz] at h
  | bool b => simp [isCanonicalQuiz] at h
  | int n => simp [isCanonicalQuiz] at h
  | float f => simp [isCanonicalQuiz] at h
  | str s => simp [isCanonicalQuiz] at h
  | arr xs => simp [isCanonicalQuiz] at h

/-- C8 witness: a concrete canonical quiz round-trips unchanged. -/
theorem claim_C8_witness : normalizeQuiz canonQuiz "tt" "hard" = .ok canonQuiz :=
  claim_C8 canonQuiz rfl "tt" "hard"

/-- C9: on a 3-item quiz, three `submit → reveal → advance` rounds from a
fresh session end in the `Completed` phase (`quiz_idx = 3`), and from there
no submit is accepted (the state, including the ledger, is returned
unchanged) and `advance` cannot move the index either. -/
theorem claim_C9 (items : List QItem) (h3 : items.length = 3) (diff : String)
    (t1 t2 t3 : Nat) (c1 c2 c3 : Int) (prog : Progress) :
    phase items (sessionAfter3 items diff t1 t2 t3 c1 c2 c3 prog) = .Completed ∧
    (∀ (c : Option Int) (ts : Nat),
      submit items diff ts (sessionAfter3 items diff t1 t2 t3 c1 c2 c3 prog) c =
        sessionAfter3 items diff t1 t2 t3 c1 c2 c3 prog) ∧
    (sessionAfter3 items diff t1 t2 t3 c1 c2 c3 prog).quiz_idx = 3 ∧
    advance items (sessionAfter3 items diff t1 t2 t3 c1 c2 c3 prog) =
      sessionAfter3 items diff t1 t2 t3 c1 c2 c3 prog := by
  obtain ⟨a, b, c, rfl⟩ := List.length_eq_three.mp h3
  have hidx : (sessionAfter3 [a, b, c] diff t1 t2 t3 c1 c2 c3 prog).quiz_idx = 3 := by
    simp [sessionAfter3, submit, reveal, advance, freshSession]
  refine ⟨?_, ?_, hidx, ?_⟩
  · unfold phase
    rw [hidx]
    simp
  · intro c' ts
    unfold submit
    rw [hidx]
    simp
  · unfold advance
    rw [hidx]
    simp

/-- C9 witness: the completed-and-terminal property on a concrete 3-item
quiz. -/
theorem claim_C9_witness :
    phase [⟨"q1", Json.int 0⟩, ⟨"q2", Json.int 1⟩, ⟨"q3", Json.int 2⟩]
      (sessionAfter3 [⟨"q1", Json.int 0⟩, ⟨"q2", Json.int 1⟩, ⟨"q3", Json.int 2⟩]
        "easy" 1 2 3 0 1 2 emptyProgress) = .Completed ∧
    (∀ (c : Option Int) (ts : Nat),
      submit [⟨"q1", Json.int 0⟩, ⟨"q2", Json.int 1⟩, ⟨"q3", Json.int 2⟩] "easy" ts
        (sessionAfter3 [⟨"q1", Json.int 0⟩, ⟨"q2", Json.int 1⟩, ⟨"q3", Json.int 2⟩]
          "easy" 1 2 3 0 1 2 emptyProgress) c =
        sessionAfter3 [⟨"q1", Json.int 0⟩, ⟨"q2", Json.int 1⟩, ⟨"q3", Json.int 2⟩]
          "easy" 1 2 3 0 1 2 emptyProgress) ∧
    (sessionAfter3 [⟨"q1", Json.int 0⟩, ⟨"q2", Json.int 1⟩, ⟨"q3", Json.int 2⟩]
      "easy" 1 2 3 0 1 2 emptyProgress).quiz_idx = 3 ∧
    advance [⟨"q1", Json.int 0⟩, ⟨"q2", Json.int 1⟩, ⟨"q3", Json.int 2⟩]
      (sessionAfter3 [⟨"q1", Json.int 0⟩, ⟨"q2", Json.int 1⟩, ⟨"q3", Json.int 2⟩]
        "easy" 1 2 3 0 1 2 emptyProgress) =
      sessionAfter3 [⟨"q1", Json.int 0⟩, ⟨"q2", Json.int 1⟩, ⟨"q3", Json.int 2⟩]
        "easy" 1 2 3 0 1 2 emptyProgress :=
  claim_C9 [⟨"q1", Json.int 0⟩, ⟨"q2", Json.int 1⟩, ⟨"q3", Json.int 2⟩] rfl
    "easy" 1 2 3 0 1 2 emptyProgress

/-- C10: a boolean `answer_index` is silently accepted — `isinstance(b,
int)` holds for Python booleans and `True`/`False` lie in `range(4)` — so
an otherwise-valid item normalizes successfully keeping the boolean, which
then grades exactly like index 1 (for `true`) or 0 (for `false`). -/
theorem claim_C10 (i : Nat) (fs : List (String × Json)) (b : Bool) (os : List Json)
    (hqt : lookupField "question_text" fs = none)
    (hq : (lookupField "question" fs).isSome = true)
    (hos : lookupField "options" fs = some (.arr os))
    (hlen : os.length = 4)
    (hca : lookupField "correct_answer" fs = none)
    (hai : lookupField "answer_index" fs = some (.bool b)) :
    ∃ fs', normalizeItemFields i fs = .ok fs' ∧
      lookupField "answer_index" fs' = some (.bool b) ∧
      (∀ c : Int, pyEqNum c (.bool b) = decide (c = (if b then 1 else 0))) := by
  have e1 := stepQuestionText_of_none fs hqt
  have e2 : checkQuestion i fs = .ok () := by
    unfold checkQuestion
    rw [isNone_false_of_isSome _ hq]
    rfl
  have e3 : stepOptionsDict fs = fs := by
    unfold stepOptionsDict
    rw [hos]
  have e4 : checkOptions i fs = .ok () := by
    unfold checkOptions
    rw [hos]
    simp [pyLen, hlen]
  have e5 := stepCorrectAnswer_of_none i fs hca
  have e6 : checkAnswerIndex i fs = .ok () := by
    unfold checkAnswerIndex
    rw [hai]
    cases b <;> simp [pyIsInt, pyIntOf]
  refine ⟨stepDefaults (stepId i fs), ?_, ?_, ?_⟩
  · simp only [normalizeItemFields, e1, e2, e3, e4, e5, e6, Bind.bind, Except.bind,
      Pure.pure, Except.pure]
  · rw [lookup_stepDefaults _ (by decide) (by decide),
      lookup_stepId i _ (by decide) (by decide), hai]
  · intro c
    cases b <;> simp [pyEqNum]

/-- C10 witness: the boolean `true` flows through normalization on a
concrete item and grades like index 1. -/
theorem claim_C10_witness :
    ∃ fs', normalizeItemFields 0 (boolIdxFields true) = .ok fs' ∧
      lookupField "answer_index" fs' = some (.bool true) ∧
      (∀ c : Int, pyEqNum c (.bool true) = decide (c = (if true then 1 else 0))) :=
  claim_C10 0 (boolIdxFields true) true [.str "w", .str "x", .str "y", .str "z"]
    rfl rfl rfl rfl rfl rfl

end Planner






